/-
Verification of the query-generation / self-repair core of the
ai-sales-analytics repository.

The Python sources under `src/` are shallowly embedded:

* `src/query_generator.py` — `QueryGenerator.generate_sql`,
  `QueryGenerator.validate_and_improve_query`, `QueryGenerator._wait_for_rate_limit`;
* `src/automated_eda.py` — `AutomatedEDA.execute_query` (plus the file-writing
  side effects of `generate_eda_report`, abstracted as an oracle list of file
  names under `../outputs`);
* `src/summary_generator.py` — `SummaryGenerator.generate_executive_summary`;
* `src/main.py` — `AnalyticsWorkflow.run_analysis`.

External collaborators (the Gemini completion backend, the database, the
system clock) are passed in as oracle arguments.  Python's `json.loads` is
modelled by an executable recursive-descent decoder over `List Char`;
Python's `str.split`, `in` and `str.strip` are modelled by executable
char-list functions with the same semantics.
-/
import Mathlib

namespace SalesAnalytics

/-! ## Python string primitives, modelled over `List Char`

Two distinct whitespace sets are in play: `Char.isWhitespace` covers
exactly `' '`, `'\t'`, `'\r'`, `'\n'`, the whitespace set of the JSON
grammar (used by the `json.loads` model below); Python's `str.strip`
strips the larger CPython `Py_UNICODE_ISSPACE` set, modelled by
`pyIsSpace`. -/

/-- The whitespace set of CPython's `str.strip()` / `str.isspace()`
(`Py_UNICODE_ISSPACE`): U+0009-U+000D, U+001C-U+001F, U+0020, U+0085,
U+00A0, U+1680, U+2000-U+200A, U+2028, U+2029, U+202F, U+205F, U+3000. -/
def pyIsSpace (c : Char) : Bool :=
  (0x09 ≤ c.toNat && c.toNat ≤ 0x0d) || c.toNat = 0x20 ||
  (0x1c ≤ c.toNat && c.toNat ≤ 0x1f) || c.toNat = 0x85 || c.toNat = 0xa0 ||
  c.toNat = 0x1680 || (0x2000 ≤ c.toNat && c.toNat ≤ 0x200a) ||
  c.toNat = 0x2028 || c.toNat = 0x2029 || c.toNat = 0x202f ||
  c.toNat = 0x205f || c.toNat = 0x3000

/-- `s.strip()` on the character list: drop Python whitespace from both
ends. -/
def pyStripChars (l : List Char) : List Char :=
  (((l.dropWhile pyIsSpace).reverse.dropWhile pyIsSpace)).reverse

/-- JSON-whitespace trimming, used by the `json.loads` model: `json.loads`
accepts (only) the four JSON whitespace characters around the document. -/
def stripChars (l : List Char) : List Char :=
  (((l.dropWhile Char.isWhitespace).reverse.dropWhile Char.isWhitespace)).reverse

/-- Python's substring test `sep in l` (true iff `sep` occurs contiguously). -/
def containsSub (sep : List Char) : List Char → Bool
  | [] => sep.isPrefixOf []
  | c :: t => sep.isPrefixOf (c :: t) || containsSub sep t

/-- Python's `l.split(sep)` for non-empty `sep`: scan left to right, cut at
each non-overlapping occurrence.  `fuel` bounds recursion; any
`fuel ≥ l.length` gives the scan's fixed behaviour. -/
def splitOnFuel (sep : List Char) : Nat → List Char → List Char → List (List Char)
  | 0, l, acc => [acc.reverse ++ l]
  | fuel + 1, l, acc =>
    match l with
    | [] => [acc.reverse]
    | c :: t =>
      if sep.isPrefixOf (c :: t) ∧ sep ≠ [] then
        acc.reverse :: splitOnFuel sep fuel (List.drop sep.length (c :: t)) []
      else
        splitOnFuel sep fuel t (c :: acc)

/-- Python `s.split(sep)` on strings. -/
def pySplit (s sep : String) : List String :=
  (splitOnFuel sep.data (s.data.length + 1) s.data []).map fun cs => ⟨cs⟩

/-- Python `sub in s`. -/
def pyContains (s sub : String) : Bool :=
  containsSub sub.data s.data

/-- Python `s.strip()`. -/
def pyStrip (s : String) : String :=
  ⟨pyStripChars s.data⟩

/-! ## A model of `json.loads`

`JValue` is the decoded document; numbers keep their lexeme (no claim
inspects numeric values).  The decoder is fuel-indexed recursive descent,
faithful to the JSON grammar on the inputs exercised here. -/

inductive JValue where
  | null
  | bool (b : Bool)
  | num (lexeme : String)
  | str (s : String)
  | arr (elems : List JValue)
  | obj (fields : List (String × JValue))

/-- Value of a hex digit, if any. -/
def hexVal (c : Char) : Option Nat :=
  if '0' ≤ c ∧ c ≤ '9' then some (c.toNat - '0'.toNat)
  else if 'a' ≤ c ∧ c ≤ 'f' then some (c.toNat - 'a'.toNat + 10)
  else if 'A' ≤ c ∧ c ≤ 'F' then some (c.toNat - 'A'.toNat + 10)
  else none

/-- Parse the body of a JSON string (the opening quote already consumed),
returning the content and the remainder after the closing quote. -/
def parseStringBody : List Char → Option (List Char × List Char)
  | [] => none
  | '"' :: rest => some ([], rest)
  | '\\' :: esc =>
    match esc with
    | '"' :: r => (parseStringBody r).map fun p => ('"' :: p.1, p.2)
    | '\\' :: r => (parseStringBody r).map fun p => ('\\' :: p.1, p.2)
    | '/' :: r => (parseStringBody r).map fun p => ('/' :: p.1, p.2)
    | 'b' :: r => (parseStringBody r).map fun p => ('\x08' :: p.1, p.2)
    | 'f' :: r => (parseStringBody r).map fun p => ('\x0c' :: p.1, p.2)
    | 'n' :: r => (parseStringBody r).map fun p => ('\n' :: p.1, p.2)
    | 'r' :: r => (parseStringBody r).map fun p => ('\r' :: p.1, p.2)
    | 't' :: r => (parseStringBody r).map fun p => ('\t' :: p.1, p.2)
    | 'u' :: a :: b :: c :: d :: r =>
      match hexVal a, hexVal b, hexVal c, hexVal d with
      | some va, some vb, some vc, some vd =>
        (parseStringBody r).map fun p =>
          (Char.ofNat (va * 4096 + vb * 256 + vc * 16 + vd) :: p.1, p.2)
      | _, _, _, _ => none
    | _ => none
  | c :: rest => (parseStringBody rest).map fun p => (c :: p.1, p.2)

/-- Characters that may appear in a JSON number lexeme. -/
def numChar (c : Char) : Bool :=
  c.isDigit || c = '-' || c = '+' || c = '.' || c = 'e' || c = 'E'

/-- Minimal sanity check on a number lexeme. -/
def numOk (lex : List Char) : Bool :=
  match lex with
  | [] => false
  | c :: _ => (c.isDigit || c = '-') && lex.any Char.isDigit

/-- Skip JSON whitespace. -/
def skipWs (l : List Char) : List Char :=
  l.dropWhile Char.isWhitespace

mutual

/-- Parse one JSON value (leading whitespace allowed), returning it and the
unconsumed remainder. -/
def parseVal : Nat → List Char → Option (JValue × List Char)
  | 0, _ => none
  | fuel + 1, l =>
    match skipWs l with
    | 'n' :: 'u' :: 'l' :: 'l' :: r => some (.null, r)
    | 't' :: 'r' :: 'u' :: 'e' :: r => some (.bool true, r)
    | 'f' :: 'a' :: 'l' :: 's' :: 'e' :: r => some (.bool false, r)
    | '"' :: r => (parseStringBody r).map fun p => (.str ⟨p.1⟩, p.2)
    | '[' :: r =>
      match skipWs r with
      | ']' :: r2 => some (.arr [], r2)
      | _ => (parseArrElems fuel r).map fun p => (.arr p.1, p.2)
    | '\x7b' :: r =>
      match skipWs r with
      | '\x7d' :: r2 => some (.obj [], r2)
      | _ => (parseObjMembers fuel r).map fun p => (.obj p.1, p.2)
    | c :: r =>
      if c.isDigit ∨ c = '-' then
        let lex := (c :: r).takeWhile numChar
        if numOk lex then some (.num ⟨lex⟩, (c :: r).drop lex.length) else none
      else none
    | [] => none

/-- Parse `value (',' value)* ']'` inside an array. -/
def parseArrElems : Nat → List Char → Option (List JValue × List Char)
  | 0, _ => none
  | fuel + 1, l =>
    match parseVal fuel l with
    | none => none
    | some (v, rest) =>
      match skipWs rest with
      | ',' :: r2 => (parseArrElems fuel r2).map fun p => (v :: p.1, p.2)
      | ']' :: r2 => some ([v], r2)
      | _ => none

/-- Parse `string ':' value (',' member)* '}'` inside an object. -/
def parseObjMembers : Nat → List Char → Option (List (String × JValue) × List Char)
  | 0, _ => none
  | fuel + 1, l =>
    match skipWs l with
    | '"' :: r =>
      match parseStringBody r with
      | none => none
      | some (key, r2) =>
        match skipWs r2 with
        | ':' :: r3 =>
          match parseVal fuel r3 with
          | none => none
          | some (v, r4) =>
            match skipWs r4 with
            | ',' :: r5 => (parseObjMembers fuel r5).map fun p => ((⟨key⟩, v) :: p.1, p.2)
            | '\x7d' :: r5 => some ([(⟨key⟩, v)], r5)
            | _ => none
        | _ => none
    | _ => none

end

/-- `json.loads`: strip surrounding whitespace, parse one document, reject
trailing garbage.  Errors carry a fixed marker text (the exact Python
exception text is not material to any claim). -/
def loads (s : String) : Except String JValue :=
  match parseVal (2 * (stripChars s.data).length + 4) (stripChars s.data) with
  | some (v, []) => .ok v
  | some _ => .error "JSONDecodeError: Extra data"
  | none => .error "JSONDecodeError: Expecting value"

/-! ## `QueryGenerator` (src/query_generator.py) -/

/-- `'429' in error_msg or 'RESOURCE_EXHAUSTED' in error_msg`
(query_generator.py lines 118 and 196). -/
def classifyRateLimit (error_msg : String) : Bool :=
  pyContains error_msg "429" || pyContains error_msg "RESOURCE_EXHAUSTED"

/-- The markdown-fence stripping of query_generator.py lines 100-104 and
179-183: prefer a ```json fence, fall back to any ``` fence, else use the
raw body.  The source indexes `split(...)[1]` only under the corresponding
containment guard, which guarantees the index exists; `getD` mirrors that. -/
def extractPayload (response_text : String) : String :=
  if pyContains response_text "```json" then
    pyStrip ((pySplit ((pySplit response_text "```json").getD 1 "") "```").getD 0 "")
  else if pyContains response_text "```" then
    pyStrip ((pySplit ((pySplit response_text "```").getD 1 "") "```").getD 0 "")
  else
    response_text

/-- The dict returned by `generate_sql`.  `none` models Python `None` or an
absent key. -/
structure GenResult where
  success : Bool
  sql : Option String := none
  explanation : Option String := none
  error : Option String := none
  error_type : Option String := none
deriving Repr, DecidableEq

/-- The `except` branch of `generate_sql` (lines 114-132). -/
def genFailure (e : String) : GenResult :=
  if classifyRateLimit e then
    { success := false, sql := none, explanation := none
      error := some "Rate limit exceeded. Try again in a few minutes or enable billing for higher quota."
      error_type := some "rate_limit" }
  else
    { success := false, sql := none, explanation := none, error := some e }

/-- Python dict lookup: with duplicate keys `json.loads` keeps the last
binding, hence the reversed search. -/
def dictLookup (fields : List (String × JValue)) (key : String) : Option JValue :=
  (fields.reverse.find? fun kv => kv.1 == key).map fun kv => kv.2

/-- `result.get(key, '').strip()`: a missing key defaults to `''`; a
non-string value makes `.strip()` raise `AttributeError` (modelled `none`). -/
def pyGetStrStrip (fields : List (String × JValue)) (key : String) : Option String :=
  match dictLookup fields key with
  | none => some ""
  | some (JValue.str s) => some (pyStrip s)
  | some _ => none

/-- `QueryGenerator.generate_sql` (lines 65-132), as a function of the
completion-call outcome: `.error e` models the call raising an exception
whose `str` is `e`, `.ok t` models a response with text `t`. -/
def generate_sql (api : Except String String) : GenResult :=
  match api with
  | .error e => genFailure e
  | .ok response_text =>
    match loads (extractPayload response_text) with
    | .error e => genFailure e
    | .ok (JValue.obj fields) =>
      match pyGetStrStrip fields "sql", pyGetStrStrip fields "explanation" with
      | some s, some ex =>
        { success := true, sql := some s, explanation := some ex }
      | _, _ => genFailure "AttributeError"
    | .ok _ => genFailure "AttributeError"

/-- The dict returned by `validate_and_improve_query`. -/
structure FixResult where
  success : Bool
  sql : Option String := none
  changes : Option String := none
  warnings : Option String := none
  error : Option String := none
  error_type : Option String := none
deriving Repr, DecidableEq

/-- The `except` branch of `validate_and_improve_query` (lines 193-206). -/
def fixFailure (e : String) : FixResult :=
  if classifyRateLimit e then
    { success := false
      error := some "Rate limit exceeded. Try again in a few minutes."
      error_type := some "rate_limit" }
  else
    { success := false, error := some e }

/-- `QueryGenerator.validate_and_improve_query` (lines 134-206), parsing
part, as a function of the completion-call outcome. -/
def validate_and_improve_query (api : Except String String) : FixResult :=
  match api with
  | .error e => fixFailure e
  | .ok response_text =>
    match loads (extractPayload response_text) with
    | .error e => fixFailure e
    | .ok (JValue.obj fields) =>
      match pyGetStrStrip fields "sql", pyGetStrStrip fields "changes",
            pyGetStrStrip fields "warnings" with
      | some s, some c, some w =>
        { success := true, sql := some s, changes := some c, warnings := some w }
      | _, _, _ => fixFailure "AttributeError"
    | .ok _ => fixFailure "AttributeError"

/-! ## Rate-limit state (`_wait_for_rate_limit`, lines 53-63)

Clock values are rationals (the source uses seconds from `time.time()`).
The model is the deterministic synchronous clock: consecutive `time.time()`
reads without an intervening sleep return the same value, and
`time.sleep(d)` advances the clock by exactly `d`. -/

structure RateState where
  min_delay : ℚ
  last_request_time : ℚ
deriving Repr, DecidableEq

/-- `QueryGenerator.__init__` (lines 12-18): `min_delay = 5`,
`last_request_time = 0`. -/
def initRateState : RateState :=
  { min_delay := 5, last_request_time := 0 }

/-- `_wait_for_rate_limit` called when the clock reads `now`: returns the
sleep duration and the updated state.  After the optional sleep the source
stores a fresh `time.time()` reading, i.e. `now + sleep`. -/
def wait_for_rate_limit (st : RateState) (now : ℚ) : ℚ × RateState :=
  let time_since_last := now - st.last_request_time
  if time_since_last < st.min_delay then
    let wait_time := st.min_delay - time_since_last
    (wait_time, { st with last_request_time := now + wait_time })
  else
    (0, { st with last_request_time := now })

/-- `validate_and_improve_query` with its clock effects: it calls
`_wait_for_rate_limit` (line 169) and then issues the completion request, at
time `now + sleep`.  Returns (result, new state, request issue time). -/
def validate_and_improve_query_timed (st : RateState) (now : ℚ)
    (api : Except String String) : FixResult × RateState × ℚ :=
  let ws := wait_for_rate_limit st now
  (validate_and_improve_query api, ws.2, now + ws.1)

/-- `generate_sql` with its clock effects: the source issues the completion
request directly (line 96) without calling `_wait_for_rate_limit`, so the
state is untouched and the request goes out at `now`. -/
def generate_sql_timed (st : RateState) (now : ℚ)
    (api : Except String String) : GenResult × RateState × ℚ :=
  (generate_sql api, st, now)

/-! ## `AutomatedEDA.execute_query` (src/automated_eda.py lines 25-40) -/

/-- The materialized query result (`pandas.read_sql` output); only the rows
matter to the orchestrator, which uses `len(df)`. -/
structure DataFrame where
  rows : List (List String)
deriving Repr, DecidableEq

/-- `execute_query`, as a function of the database outcome: either the
driver returns a table, or it raises an exception with text `e`; the source
catches every exception and returns `(None, str(e))`. -/
def execute_query (dbOutcome : Except String DataFrame) :
    Option DataFrame × Option String :=
  match dbOutcome with
  | .ok df => (some df, none)
  | .error e => (none, some e)

/-! ## `SummaryGenerator.generate_executive_summary`
(src/summary_generator.py lines 37-110) -/

/-- The text substituted when the summary completion call hits a rate
limit (lines 100-108; contents abbreviated to their fixed head, which is
all the orchestrator observes in the claims). -/
def rateLimitSummaryText : String :=
  "Error generating summary: Rate limit exceeded.\n\nPlease wait a few minutes and try again."

/-- `generate_executive_summary` as a function of the completion outcome:
the success text is returned verbatim; every exception is caught and an
error string is RETURNED in place of the summary (lines 96-110). -/
def generate_executive_summary (api : Except String String) : String :=
  match api with
  | .ok text => text
  | .error e =>
    if classifyRateLimit e then rateLimitSummaryText
    else "Error generating summary: " ++ e

/-! ## `AnalyticsWorkflow.run_analysis` (src/main.py lines 21-168) -/

/-- Externally visible events of one workflow run, in order: completion
calls, executor calls, and file writes (path and content). -/
inductive Event where
  | genCall
  | fixCall (sql : String) (error : String)
  | execCall (sql : String)
  | summaryCall
  | fileWrite (path : String) (content : String)
deriving Repr, DecidableEq

/-- The `results` dict built by `run_analysis`.  `none` models an absent
key.  The `dataframe`/`eda_results` entries (in-memory objects) are not
modelled; `row_count` carries `len(df)`. -/
structure Results where
  success : Bool
  query : String
  timestamp : String
  sql_query : Option String := none
  sql_explanation : Option String := none
  sql_file : Option String := none
  error : Option String := none
  row_count : Option Nat := none
  executive_summary : Option String := none
  report_file : Option String := none
deriving Repr, DecidableEq

/-- Python truthiness of the `error` slot: `None` and `''` are falsy. -/
def truthy : Option String → Bool
  | none => false
  | some s => s ≠ ""

/-- Content of the saved SQL file (main.py lines 68-72). -/
def mkSqlFileContent (ts question explanation sql : String) : String :=
  "-- Generated: " ++ ts ++ "\n" ++ "-- Question: " ++ question ++ "\n" ++
    "-- Explanation: " ++ explanation ++ "\n\n" ++ sql

/-- Steps 3-5 of `run_analysis` (lines 107-168), reached when `error` is
falsy.  If the preceding `execute_query` produced `(None, '')` the source
evaluates `len(None)` and the run dies with an uncaught `TypeError`,
modelled as result `none`.  `edaFiles` abstracts the names of the files the
EDA step writes; every one of them is created via
`os.path.join("../outputs", ...)` (automated_eda.py lines 161, 183, 201,
206, 242 and summary_generator.py line 252). -/
def finishRun (res : Results) (df? : Option DataFrame) (ts : String)
    (summaryApi : Except String String) (edaFiles : List String)
    (tr : List Event) : Option Results × List Event :=
  match df? with
  | none => (none, tr)
  | some df =>
    let summary := generate_executive_summary summaryApi
    let reportPath := "../outputs/" ++ ("complete_report_" ++ ts ++ ".md")
    let res' : Results :=
      { res with
        success := true
        row_count := some df.rows.length
        executive_summary := some summary
        report_file := some reportPath }
    (some res',
     tr ++ (edaFiles.map fun f => Event.fileWrite ("../outputs/" ++ f) "eda-artifact")
        ++ [Event.summaryCall, Event.fileWrite reportPath "report"])

/-- `AnalyticsWorkflow.run_analysis`.  Oracles: `genApi` is the outcome of
the generator's completion call, `exec1`/`exec2` the database outcomes of
the at most two `execute_query` calls, `fixApi` the corrector's completion
outcome, `summaryApi` the summary completion outcome, `edaFiles` the names
of the EDA artifacts.  Returns the `results` dict (`none` for an uncaught
exception) and the event trace. -/
def run_analysis (question ts : String) (save_sql : Bool)
    (genApi : Except String String) (exec1 exec2 : Except String DataFrame)
    (fixApi summaryApi : Except String String) (edaFiles : List String) :
    Option Results × List Event :=
  let results0 : Results := { success := false, query := question, timestamp := ts }
  let query_result := generate_sql genApi
  let tr0 : List Event := [Event.genCall]
  if query_result.success = false then
    (some results0, tr0)
  else
    let sql0 := query_result.sql.getD ""
    let expl := query_result.explanation.getD ""
    let results1 : Results :=
      { results0 with sql_query := some sql0, sql_explanation := some expl }
    let sqlPath := "../sql_queries/" ++ ("query_" ++ ts ++ ".sql")
    let results2 :=
      if save_sql then { results1 with sql_file := some sqlPath } else results1
    let tr1 := tr0 ++
      (if save_sql then [Event.fileWrite sqlPath (mkSqlFileContent ts question expl sql0)]
       else [])
    let de1 := execute_query exec1
    let tr2 := tr1 ++ [Event.execCall sql0]
    if truthy de1.2 then
      let fix_result := validate_and_improve_query fixApi
      let tr3 := tr2 ++ [Event.fixCall sql0 (de1.2.getD "")]
      if fix_result.success then
        let sql1 := fix_result.sql.getD ""
        let results3 := { results2 with sql_query := some sql1 }
        let de2 := execute_query exec2
        let tr4 := tr3 ++ [Event.execCall sql1]
        if truthy de2.2 then
          (some { results3 with error := de2.2 }, tr4)
        else
          finishRun results3 de2.1 ts summaryApi edaFiles tr4
      else
        (some { results2 with error := de1.2 }, tr3)
    else
      finishRun results2 de1.1 ts summaryApi edaFiles tr2

/-- Is an event a corrector call? -/
def isFixCall : Event → Bool
  | Event.fixCall _ _ => true
  | _ => false

/-- Is an event an executor call? -/
def isExecCall : Event → Bool
  | Event.execCall _ => true
  | _ => false

/-- The SQL of an executor-call event, if it is one. -/
def execSqlOf : Event → Option String
  | Event.execCall s => some s
  | _ => none

/-- Number of corrector calls in a trace. -/
def countFixCalls (tr : List Event) : Nat :=
  (tr.filter isFixCall).length

/-- Number of executor calls in a trace. -/
def countExecCalls (tr : List Event) : Nat :=
  (tr.filter isExecCall).length

/-- The SQL text of the last executor call of a trace, if any. -/
def lastExecSql (tr : List Event) : Option String :=
  (tr.filterMap execSqlOf).getLast?

@[simp] theorem isFixCall_genCall : isFixCall Event.genCall = false := rfl

@[simp] theorem isFixCall_fixCall (q e : String) :
    isFixCall (Event.fixCall q e) = true := rfl

@[simp] theorem isFixCall_execCall (q : String) :
    isFixCall (Event.execCall q) = false := rfl

@[simp] theorem isFixCall_summaryCall : isFixCall Event.summaryCall = false := rfl

@[simp] theorem isFixCall_fileWrite (p c : String) :
    isFixCall (Event.fileWrite p c) = false := rfl

@[simp] theorem isExecCall_genCall : isExecCall Event.genCall = false := rfl

@[simp] theorem isExecCall_fixCall (q e : String) :
    isExecCall (Event.fixCall q e) = false := rfl

@[simp] theorem isExecCall_execCall (q : String) :
    isExecCall (Event.execCall q) = true := rfl

@[simp] theorem isExecCall_summaryCall : isExecCall Event.summaryCall = false := rfl

@[simp] theorem isExecCall_fileWrite (p c : String) :
    isExecCall (Event.fileWrite p c) = false := rfl

@[simp] theorem execSqlOf_genCall : execSqlOf Event.genCall = none := rfl

@[simp] theorem execSqlOf_fixCall (q e : String) :
    execSqlOf (Event.fixCall q e) = none := rfl

@[simp] theorem execSqlOf_execCall (q : String) :
    execSqlOf (Event.execCall q) = some q := rfl

@[simp] theorem execSqlOf_summaryCall : execSqlOf Event.summaryCall = none := rfl

@[simp] theorem execSqlOf_fileWrite (p c : String) :
    execSqlOf (Event.fileWrite p c) = none := rfl

@[simp] theorem filter_isFixCall_eda (fs : List String) :
    (fs.map fun f => Event.fileWrite ("../outputs/" ++ f) "eda-artifact").filter
      isFixCall = [] := by
  induction fs with
  | nil => rfl
  | cons a t ih => simp

@[simp] theorem filter_isExecCall_eda (fs : List String) :
    (fs.map fun f => Event.fileWrite ("../outputs/" ++ f) "eda-artifact").filter
      isExecCall = [] := by
  induction fs with
  | nil => rfl
  | cons a t ih => simp

@[simp] theorem filterMap_execSqlOf_eda (fs : List String) :
    (fs.map fun f => Event.fileWrite ("../outputs/" ++ f) "eda-artifact").filterMap
      execSqlOf = [] := by
  induction fs with
  | nil => rfl
  | cons a t ih => simp

theorem truthy_isSome {o : Option String} (h : truthy o = true) : o.isSome = true := by
  cases o with
  | none => simp [truthy] at h
  | some s => rfl

/-! ## Lemmas about the Python string primitives -/

theorem containsSub_infix_iff (sep l : List Char) :
    containsSub sep l = true ↔ sep <:+: l := by
  induction l with
  | nil => simp [containsSub]
  | cons c t ih =>
    simp [containsSub, ih, List.infix_cons_iff]

theorem containsSub_mono {s1 s2 l : List Char} (hpre : s1 <+: s2)
    (h : containsSub s2 l = true) : containsSub s1 l = true := by
  rw [ containsSub_infix_iff] at h ⊢
  exact hpre.isInfix.trans h

theorem prefix_append_split {l x b : List Char} (h : l <+: x ++ b) :
    l <+: x ∨ (x <+: l ∧ l.drop x.length <+: b) := by
  induction x generalizing l with
  | nil =>
    right
    simpa using h
  | cons c x' ih =>
    cases l with
    | nil => exact Or.inl ⟨_, rfl⟩
    | cons d l' =>
      rw [List.cons_append, List.cons_prefix_cons] at h
      obtain ⟨rfl, h'⟩ := h
      rcases ih h' with h1 | ⟨h2, h3⟩
      · exact Or.inl (List.cons_prefix_cons.mpr ⟨rfl, h1⟩)
      · exact Or.inr ⟨List.cons_prefix_cons.mpr ⟨rfl, h2⟩, h3⟩

theorem infix_append_split {l a b : List Char} (h : l <:+: a ++ b) :
    l <:+: a ∨ l <:+: b ∨
      ∃ k, 0 < k ∧ k < l.length ∧ l.take k <:+ a ∧ l.drop k <+: b := by
  induction a generalizing l with
  | nil => simpa using Or.inr (Or.inl h)
  | cons c a' ih =>
    rw [List.cons_append, List.infix_cons_iff] at h
    rcases h with h | h
    · rcases prefix_append_split (x := c :: a') h with h1 | ⟨h2, h3⟩
      · exact Or.inl h1.isInfix
      · by_cases hlen : l.length ≤ (c :: a').length
        · have : l = c :: a' := (h2.eq_of_length_le hlen).symm
          exact Or.inl (this ▸ List.infix_refl _)
        · refine Or.inr (Or.inr ⟨(c :: a').length, by simp, by omega, ?_, h3⟩)
          have : l.take (c :: a').length = c :: a' := by
            have := List.prefix_iff_eq_take.mp h2
            exact this.symm
          rw [this]
    · rcases ih h with h1 | h1 | ⟨k, hk0, hkl, hka, hkb⟩
      · exact Or.inl (List.infix_cons h1)
      · exact Or.inr (Or.inl h1)
      · exact Or.inr (Or.inr ⟨k, hk0, hkl, hka.trans (List.suffix_cons _ _), hkb⟩)

theorem splitOnFuel_nil (sep : List Char) (fuel : Nat) (acc : List Char) :
    splitOnFuel sep fuel [] acc = [acc.reverse] := by
  cases fuel <;> simp [splitOnFuel]

theorem splitOnFuel_no_occ (sep : List Char) :
    ∀ (fuel : Nat) (l acc : List Char), l.length ≤ fuel →
      containsSub sep l = false →
      splitOnFuel sep fuel l acc = [acc.reverse ++ l] := by
  intro fuel
  induction fuel with
  | zero => intro l acc _ _; rfl
  | succ f ih =>
    intro l acc hl hno
    cases l with
    | nil => simp [splitOnFuel]
    | cons c t =>
      simp only [containsSub, Bool.or_eq_false_iff] at hno
      rw [splitOnFuel, if_neg (by simp [hno.1])]
      rw [ih t (c :: acc) (by simpa using Nat.le_of_succ_le_succ hl) hno.2]
      simp

theorem splitOnFuel_head (sep t : List Char) (fuel : Nat)
    (hsep : sep ≠ []) (hno : containsSub sep t = false)
    (hfuel : (sep ++ t).length ≤ fuel + 1) :
    splitOnFuel sep (fuel + 1) (sep ++ t) [] = [[], t] := by
  obtain ⟨c, sep', rfl⟩ := List.exists_cons_of_ne_nil hsep
  rw [List.cons_append, splitOnFuel, if_pos]
  · rw [show List.drop (c :: sep').length (c :: (sep' ++ t)) = t by
      simp [List.drop_left]]
    rw [splitOnFuel_no_occ (c :: sep') fuel t []
      (by simp at hfuel; omega) hno]
    simp
  · refine ⟨?_, by simp⟩
    rw [ List.isPrefixOf_iff_prefix, ← List.cons_append]
    exact List.prefix_append _ _

theorem splitOnFuel_tail (sep : List Char) (hsep : sep ≠ []) :
    ∀ (u : List Char) (fuel : Nat) (acc : List Char),
      (∀ s : List Char, s <:+ u → s ≠ [] → sep.isPrefixOf (s ++ sep) = false) →
      (u ++ sep).length ≤ fuel + 1 →
      splitOnFuel sep (fuel + 1) (u ++ sep) acc = [acc.reverse ++ u, []] := by
  intro u
  induction u with
  | nil =>
    intro fuel acc _ _
    obtain ⟨c, sep', rfl⟩ := List.exists_cons_of_ne_nil hsep
    rw [List.nil_append, splitOnFuel, if_pos]
    · rw [List.drop_length, splitOnFuel_nil]
      simp
    · exact ⟨by rw [ List.isPrefixOf_iff_prefix], by simp⟩
  | cons c u' ih =>
    intro fuel acc hmid hfuel
    rw [List.cons_append, splitOnFuel, if_neg]
    · have hlen : (u' ++ sep).length ≤ fuel := by
        simp at hfuel ⊢; omega
      have hfpos : 1 ≤ fuel := by
        have : sep.length ≥ 1 := by
          cases sep with
          | nil => exact absurd rfl hsep
          | cons _ _ => simp
        simp at hlen; omega
      obtain ⟨f, rfl⟩ := Nat.exists_eq_add_of_le hfpos
      rw [Nat.add_comm 1 f]
      rw [ih f (c :: acc)
        (fun s hs hne => hmid s (hs.trans (List.suffix_cons _ _)) hne)
        (by simp only [List.length_append] at hlen ⊢; omega)]
      simp
    · intro hcond
      have := hmid (c :: u') (List.suffix_refl _) (by simp)
      rw [List.cons_append] at this
      rw [this] at hcond
      exact absurd hcond.1 (by simp)

@[simp] theorem pyIsSpace_nl : pyIsSpace '\n' = true := by decide

theorem pyStripChars_pad (l : List Char) :
    pyStripChars ('\n' :: (l ++ ['\n'])) = pyStripChars l := by
  unfold pyStripChars
  rw [List.dropWhile_cons]
  rw [if_pos (by decide)]
  rw [List.dropWhile_append]
  cases he : (l.dropWhile pyIsSpace).isEmpty with
  | true =>
    rw [List.isEmpty_iff] at he
    simp [he]
  | false =>
    simp only [he, Bool.false_eq_true, if_false]
    rw [List.reverse_append]
    simp only [List.reverse_singleton, List.singleton_append, List.dropWhile_cons]
    rw [if_pos (by decide)]

/-! ## Fence-stripping lemmas (query_generator.py lines 100-104 / 179-183)

The payload of a fenced response is recovered exactly when the payload body
contains no fence marker of its own. -/

theorem no_tick3_in_pad {p : List Char}
    (hp : containsSub "```".data p = false) :
    containsSub "```".data ('\n' :: (p ++ ['\n'])) = false := by
  rw [Bool.eq_false_iff]
  intro h
  rw [ containsSub_infix_iff] at h
  have h' : "```".data <:+: ['\n'] ++ (p ++ ['\n']) := h
  rcases infix_append_split h' with h1 | h1 | ⟨k, hk0, hkl, hka, hkb⟩
  · rw [← containsSub_infix_iff] at h1
    exact absurd h1 (by decide)
  · rcases infix_append_split h1 with h2 | h2 | ⟨k, hk0, hkl, hka, hkb⟩
    · rw [← containsSub_infix_iff] at h2
      rw [h2] at hp
      exact absurd hp (by simp)
    · rw [← containsSub_infix_iff] at h2
      exact absurd h2 (by decide)
    · have hk3 : k < 3 := by simpa using hkl
      rw [← List.isPrefixOf_iff_prefix] at hkb
      interval_cases k <;> exact absurd hkb (by decide)
  · have hk3 : k < 3 := by simpa using hkl
    rw [← List.isSuffixOf_iff_suffix] at hka
    interval_cases k <;> exact absurd hka (by decide)

theorem no_sepj_in_rest {p : List Char}
    (hp : containsSub "```".data p = false) :
    containsSub "```json".data ((['\n'] ++ p) ++ "\n```".data) = false := by
  rw [Bool.eq_false_iff]
  intro h
  rw [ containsSub_infix_iff] at h
  rcases infix_append_split h with h1 | h1 | ⟨k, hk0, hkl, hka, hkb⟩
  · have h2 : "```".data <:+: ['\n'] ++ p :=
      (List.IsPrefix.isInfix (by decide)).trans h1
    rcases infix_append_split h2 with h3 | h3 | ⟨k, hk0, hkl, hka, hkb⟩
    · rw [← containsSub_infix_iff] at h3
      exact absurd h3 (by decide)
    · rw [← containsSub_infix_iff] at h3
      rw [h3] at hp
      exact absurd hp (by simp)
    · have hk3 : k < 3 := by simpa using hkl
      rw [← List.isSuffixOf_iff_suffix] at hka
      interval_cases k <;> exact absurd hka (by decide)
  · rw [← containsSub_infix_iff] at h1
    exact absurd h1 (by decide)
  · have hk7 : k < 7 := by simpa using hkl
    rw [← List.isPrefixOf_iff_prefix] at hkb
    interval_cases k <;> exact absurd hkb (by decide)

/-- The wrapped completion response of property P3: the payload inside a
```json fence. -/
def wrapJson (p : String) : String := "```json\n" ++ p ++ "\n```"

theorem extractPayload_no_fence {p : String} (hp : pyContains p "```" = false) :
    extractPayload p = p := by
  have h1 : pyContains p "```json" = false := by
    rw [Bool.eq_false_iff] at hp ⊢
    intro h
    exact hp (containsSub_mono (by decide) h)
  rw [extractPayload, if_neg (by simp [h1]), if_neg (by simp [hp])]

theorem extractPayload_wrapJson {p : String} (hp : pyContains p "```" = false) :
    extractPayload (wrapJson p) = pyStrip p := by
  have hdata : (wrapJson p).data =
      "```json".data ++ ((['\n'] ++ p.data) ++ "\n```".data) := by
    simp [wrapJson]
  have hrest := no_sepj_in_rest (p := p.data) hp
  have hcont : pyContains (wrapJson p) "```json" = true := by
    rw [pyContains, containsSub_infix_iff, hdata]
    exact (List.prefix_append _ _).isInfix
  have hsplit1 : pySplit (wrapJson p) "```json" =
      ["", ⟨(['\n'] ++ p.data) ++ "\n```".data⟩] := by
    rw [pySplit, hdata]
    rw [splitOnFuel_head "```json".data ((['\n'] ++ p.data) ++ "\n```".data)
      (("```json".data ++ ((['\n'] ++ p.data) ++ "\n```".data)).length)
      (by decide) hrest (by omega)]
    rfl
  have hu : (['\n'] ++ p.data) ++ "\n```".data =
      ('\n' :: (p.data ++ ['\n'])) ++ "```".data := by
    rw [show "\n```".data = ['\n'] ++ "```".data from by decide]
    simp
  have htail : ∀ s : List Char, s <:+ '\n' :: (p.data ++ ['\n']) → s ≠ [] →
      ("```".data).isPrefixOf (s ++ "```".data) = false := by
    intro s hs hne
    rw [Bool.eq_false_iff]
    intro habs
    rw [ List.isPrefixOf_iff_prefix] at habs
    rcases prefix_append_split habs with h1 | ⟨h2, -⟩
    · have hinf : "```".data <:+: '\n' :: (p.data ++ ['\n']) :=
        h1.isInfix.trans hs.isInfix
      rw [← containsSub_infix_iff] at hinf
      have hno := no_tick3_in_pad (show containsSub "```".data p.data = false from hp)
      rw [hinf] at hno
      simp at hno
    · obtain ⟨t, ht⟩ := hs
      have h3 : (t ++ s).getLast? = some '\n' := by
        rw [ht]
        rw [show '\n' :: (p.data ++ ['\n']) = ('\n' :: p.data) ++ ['\n'] from by simp]
        exact List.getLast?_concat _
      rw [List.getLast?_append] at h3
      have hlast : s.getLast? = some '`' := by
        cases hgl : s.getLast? with
        | none => exact absurd (List.getLast?_eq_none_iff.mp hgl) hne
        | some c =>
          have hc := List.mem_of_getLast?_eq_some hgl
          have hmem := h2.sublist.subset hc
          rw [show "```".data = ['`', '`', '`'] from by decide] at hmem
          simp at hmem
          rw [hmem]
      rw [hlast] at h3
      simp only [Option.or_some, Option.some.injEq] at h3
      exact absurd h3 (by decide)
  have hsplit2 : pySplit ⟨(['\n'] ++ p.data) ++ "\n```".data⟩ "```" =
      [⟨'\n' :: (p.data ++ ['\n'])⟩, ""] := by
    rw [pySplit]
    show (splitOnFuel "```".data (((['\n'] ++ p.data) ++ "\n```".data).length + 1)
      ((['\n'] ++ p.data) ++ "\n```".data) []).map (fun cs => (⟨cs⟩ : String)) = _
    rw [hu]
    rw [splitOnFuel_tail "```".data (by decide) ('\n' :: (p.data ++ ['\n']))
      ((('\n' :: (p.data ++ ['\n'])) ++ "```".data).length) [] htail (by omega)]
    rfl
  rw [extractPayload, if_pos (by simp [hcont]), hsplit1]
  show pyStrip ((pySplit ⟨(['\n'] ++ p.data) ++ "\n```".data⟩ "```").getD 0 "") = _
  rw [hsplit2]
  show pyStrip ⟨'\n' :: (p.data ++ ['\n'])⟩ = pyStrip p
  show (⟨pyStripChars ('\n' :: (p.data ++ ['\n']))⟩ : String) = pyStrip p
  rw [pyStripChars_pad]
  rfl

theorem extractPayload_wrapJson_stripped {p : String}
    (hp : pyContains p "```" = false) (hs : pyStrip p = p) :
    extractPayload (wrapJson p) = p := by
  rw [extractPayload_wrapJson hp, hs]

/-! ## Shape lemmas for the generator results -/

theorem genFailure_success (e : String) : (genFailure e).success = false := by
  unfold genFailure
  split <;> rfl

theorem fixFailure_success (e : String) : (fixFailure e).success = false := by
  unfold fixFailure
  split <;> rfl

theorem generate_sql_shape (api : Except String String) :
    (∃ e, generate_sql api = genFailure e) ∨
    (∃ s ex, generate_sql api =
      { success := true, sql := some s, explanation := some ex }) := by
  cases api with
  | error e => exact Or.inl ⟨e, rfl⟩
  | ok t =>
    unfold generate_sql
    simp only []
    cases hl : loads (extractPayload t) with
    | error e =>
      exact Or.inl ⟨e, rfl⟩
    | ok v =>
      cases v with
      | obj fields =>
        simp only []
        cases hs : pyGetStrStrip fields "sql" with
        | some s =>
          cases he : pyGetStrStrip fields "explanation" with
          | some ex => exact Or.inr ⟨s, ex, rfl⟩
          | none => exact Or.inl ⟨"AttributeError", rfl⟩
        | none => exact Or.inl ⟨"AttributeError", rfl⟩
      | null => exact Or.inl ⟨"AttributeError", rfl⟩
      | bool b => exact Or.inl ⟨"AttributeError", rfl⟩
      | num lx => exact Or.inl ⟨"AttributeError", rfl⟩
      | str s => exact Or.inl ⟨"AttributeError", rfl⟩
      | arr xs => exact Or.inl ⟨"AttributeError", rfl⟩

/-! ## Claim theorems -/

/-- C2 counterexample: a completion response whose JSON payload lacks an
`sql` key parses fine, so `generate_sql` returns `success = True` with
`sql = ''` — an empty string, refuting the claim that a successful
`GenerationResult` always carries a non-empty `sql`. -/
theorem claim_C2_counterexample :
    (generate_sql (Except.ok "\x7b\"explanation\": \"x\"\x7d")).success = true ∧
    (generate_sql (Except.ok "\x7b\"explanation\": \"x\"\x7d")).sql = some "" := by
  constructor <;> rfl

/-- C2 (amended): whenever `generate_sql` returns `success = True`, the
returned `sql` field is present as a string, but it may be empty
(`result.get('sql', '')` defaults a missing or blank payload field to the
empty string). -/
theorem claim_C2_success_sql_present (api : Except String String)
    (h : (generate_sql api).success = true) :
    ∃ s : String, (generate_sql api).sql = some s := by
  rcases generate_sql_shape api with ⟨e, he⟩ | ⟨s, ex, hse⟩
  · rw [he, genFailure_success] at h
    simp at h
  · exact ⟨s, by rw [hse]⟩

/-- C2 witness: a concrete successful generation whose `sql` is present. -/
theorem claim_C2_success_sql_present_witness :
    (generate_sql (Except.ok "\x7b\"sql\": \"SELECT 1\", \"explanation\": \"E\"\x7d")).success
      = true ∧
    ∃ s : String,
      (generate_sql (Except.ok "\x7b\"sql\": \"SELECT 1\", \"explanation\": \"E\"\x7d")).sql
        = some s :=
  ⟨by rfl, claim_C2_success_sql_present _ (by rfl)⟩

/-- C3: `execute_query` never raises past its boundary: for every database
outcome it returns a pair in which exactly one of rows and error is
present — `(rows, none)` on success, `(none, error text)` on failure. -/
theorem claim_C3_execute_query_exclusive (dbOutcome : Except String DataFrame) :
    ((execute_query dbOutcome).1.isSome = true ∧ (execute_query dbOutcome).2 = none) ∨
    ((execute_query dbOutcome).1 = none ∧ (execute_query dbOutcome).2.isSome = true) := by
  cases dbOutcome with
  | ok df => exact Or.inl ⟨rfl, rfl⟩
  | error e => exact Or.inr ⟨rfl, rfl⟩

/-- C4: an error whose text contains a `429` token or `RESOURCE_EXHAUSTED`
is classified by both `generate_sql` and `validate_and_improve_query` as a
rate-limit failure (`error_type = 'rate_limit'`), not a generic one. -/
theorem claim_C4_rate_limit_classified (e : String)
    (h : pyContains e "429" = true ∨ pyContains e "RESOURCE_EXHAUSTED" = true) :
    (generate_sql (Except.error e)).error_type = some "rate_limit" ∧
    (generate_sql (Except.error e)).success = false ∧
    (validate_and_improve_query (Except.error e)).error_type = some "rate_limit" ∧
    (validate_and_improve_query (Except.error e)).success = false := by
  have hc : classifyRateLimit e = true := by
    rcases h with h | h <;> simp [classifyRateLimit, h]
  show (genFailure e).error_type = some "rate_limit" ∧ (genFailure e).success = false ∧
    (fixFailure e).error_type = some "rate_limit" ∧ (fixFailure e).success = false
  unfold genFailure fixFailure
  rw [if_pos hc, if_pos hc]
  exact ⟨rfl, rfl, rfl, rfl⟩

/-- C4 witness: a concrete 429 error text classified as rate-limited. -/
theorem claim_C4_rate_limit_classified_witness :
    (pyContains "429 RESOURCE_EXHAUSTED: quota" "429" = true ∨
      pyContains "429 RESOURCE_EXHAUSTED: quota" "RESOURCE_EXHAUSTED" = true) ∧
    ((generate_sql (Except.error "429 RESOURCE_EXHAUSTED: quota")).error_type
        = some "rate_limit" ∧
      (generate_sql (Except.error "429 RESOURCE_EXHAUSTED: quota")).success = false ∧
      (validate_and_improve_query
          (Except.error "429 RESOURCE_EXHAUSTED: quota")).error_type
        = some "rate_limit" ∧
      (validate_and_improve_query
          (Except.error "429 RESOURCE_EXHAUSTED: quota")).success = false) :=
  ⟨Or.inl (by decide), claim_C4_rate_limit_classified _ (Or.inl (by decide))⟩

/-- C5 counterexample: a payload whose `explanation` text itself contains a
``` fence parses successfully when fed bare (the stray fence extraction
finds a spurious `{}` object, so `success = True`), but fails when the same
payload arrives wrapped in a ```json fence (`success = False`): wrapped and
bare responses are NOT always parsed identically. -/
theorem claim_C5_counterexample :
    (generate_sql
      (Except.ok "\x7b\"sql\": \"A\", \"explanation\": \"x ``` \x7b\x7d ``` y\"\x7d")).success
        = true ∧
    (generate_sql (Except.ok
      (wrapJson "\x7b\"sql\": \"A\", \"explanation\": \"x ``` \x7b\x7d ``` y\"\x7d"))).success
        = false := by
  constructor <;> rfl

/-- C5 (amended): for every payload that contains no ``` fence marker of
its own and carries no leading or trailing whitespace (`p.strip() == p`),
wrapping it in a ```json fence yields exactly the same parsed result as
the bare payload, for the Generator and the Corrector alike.  (Both
hypotheses are needed: an embedded ``` derails the split-based
extraction, and surrounding whitespace is stripped from the fenced form
but reaches `json.loads` verbatim in the bare form, where it can change
the outcome or the decode-error text.)  Under the hypotheses the fenced
extraction recovers the payload string exactly, so both calls parse the
very same string. -/
theorem claim_C5_fence_wrapping_transparent (p : String)
    (hp : pyContains p "```" = false) (hs : pyStrip p = p) :
    generate_sql (Except.ok (wrapJson p)) = generate_sql (Except.ok p) ∧
    validate_and_improve_query (Except.ok (wrapJson p)) =
      validate_and_improve_query (Except.ok p) := by
  have h : extractPayload (wrapJson p) = extractPayload p := by
    rw [extractPayload_wrapJson_stripped hp hs, extractPayload_no_fence hp]
  constructor
  · unfold generate_sql
    simp only []
    rw [h]
  · unfold validate_and_improve_query
    simp only []
    rw [h]

theorem validate_timed_last (st : RateState) (now : ℚ) (api : Except String String) :
    (validate_and_improve_query_timed st now api).2.1.last_request_time =
      (validate_and_improve_query_timed st now api).2.2 := by
  simp only [validate_and_improve_query_timed, wait_for_rate_limit]
  split <;> simp

theorem validate_timed_min (st : RateState) (now : ℚ) (api : Except String String) :
    (validate_and_improve_query_timed st now api).2.1.min_delay = st.min_delay := by
  simp only [validate_and_improve_query_timed, wait_for_rate_limit]
  split <;> rfl

/-- C6: when a second `validate_and_improve_query` call arrives less than
the 5-second minimum interval after the first call's completion request,
`_wait_for_rate_limit` blocks it for at least `min_delay − elapsed`, so the
two completion requests end up at least the minimum interval apart.
(`.2.2` is the request issue time, `.2.1` the updated rate state.) -/
theorem claim_C6_throttle_spacing (st : RateState) (now₁ now₂ : ℚ)
    (api₁ api₂ : Except String String)
    (hmin : st.min_delay = 5)
    (helapsed : now₂ - (validate_and_improve_query_timed st now₁ api₁).2.2 < 5) :
    5 - (now₂ - (validate_and_improve_query_timed st now₁ api₁).2.2) ≤
      (validate_and_improve_query_timed
        (validate_and_improve_query_timed st now₁ api₁).2.1 now₂ api₂).2.2 - now₂ ∧
    5 ≤ (validate_and_improve_query_timed
        (validate_and_improve_query_timed st now₁ api₁).2.1 now₂ api₂).2.2 -
      (validate_and_improve_query_timed st now₁ api₁).2.2 := by
  have hlast := validate_timed_last st now₁ api₁
  have hmin1 := validate_timed_min st now₁ api₁
  rw [hmin] at hmin1
  set st1 := (validate_and_improve_query_timed st now₁ api₁).2.1 with hst1def
  set t1 := (validate_and_improve_query_timed st now₁ api₁).2.2 with ht1def
  have hckey : (validate_and_improve_query_timed st1 now₂ api₂).2.2 =
      now₂ + (st1.min_delay - (now₂ - st1.last_request_time)) := by
    simp only [validate_and_improve_query_timed, wait_for_rate_limit]
    rw [if_pos (by rw [hlast, hmin1]; exact helapsed)]
  rw [hckey, hlast, hmin1]
  constructor
  · linarith
  · linarith

/-- C6 witness: concrete consecutive corrector calls 2 time-units apart. -/
theorem claim_C6_throttle_spacing_witness :
    ({ min_delay := 5, last_request_time := 0 } : RateState).min_delay = 5 ∧
    (102 : ℚ) - (validate_and_improve_query_timed
      { min_delay := 5, last_request_time := 0 } 100 (Except.error "e")).2.2 < 5 ∧
    (5 - ((102 : ℚ) - (validate_and_improve_query_timed
        { min_delay := 5, last_request_time := 0 } 100 (Except.error "e")).2.2) ≤
      (validate_and_improve_query_timed
        (validate_and_improve_query_timed
          { min_delay := 5, last_request_time := 0 } 100 (Except.error "e")).2.1
        102 (Except.error "e")).2.2 - 102 ∧
    5 ≤ (validate_and_improve_query_timed
        (validate_and_improve_query_timed
          { min_delay := 5, last_request_time := 0 } 100 (Except.error "e")).2.1
        102 (Except.error "e")).2.2 -
      (validate_and_improve_query_timed
        { min_delay := 5, last_request_time := 0 } 100 (Except.error "e")).2.2) :=
  ⟨rfl, by norm_num [validate_and_improve_query_timed, wait_for_rate_limit],
    claim_C6_throttle_spacing _ _ _ _ _ rfl
      (by norm_num [validate_and_improve_query_timed, wait_for_rate_limit])⟩

/-- C7 counterexample: `generate_sql` issues its completion request without
touching the rate state — here a request goes out at time 100 while
`last_request_time` stays at its initial value 0, refuting the claim that
the timestamp is mutated before EVERY completion call of the instance. -/
theorem claim_C7_counterexample :
    (generate_sql_timed initRateState 100 (Except.error "boom")).2.1 = initRateState ∧
    initRateState.last_request_time = 0 ∧
    (generate_sql_timed initRateState 100 (Except.error "boom")).2.2 = 100 :=
  ⟨rfl, rfl, rfl⟩

/-- C7 (amended): the timestamp is initialized to 0 at construction and
never moves backwards, and `validate_and_improve_query` sets it to its
request issue time before the completion call; but `generate_sql` issues
its completion request without mutating the state at all. -/
theorem claim_C7_rate_state_lifecycle (st : RateState) (now : ℚ)
    (api : Except String String) (hmin : st.min_delay = 5) :
    initRateState.last_request_time = 0 ∧
    (generate_sql_timed st now api).2.1 = st ∧
    (validate_and_improve_query_timed st now api).2.1.last_request_time =
      (validate_and_improve_query_timed st now api).2.2 ∧
    st.last_request_time ≤
      (validate_and_improve_query_timed st now api).2.1.last_request_time := by
  refine ⟨rfl, rfl, validate_timed_last st now api, ?_⟩
  simp only [validate_and_improve_query_timed, wait_for_rate_limit]
  split
  · rename_i hcond
    simp only []
    rw [hmin] at hcond ⊢
    linarith
  · rename_i hcond
    simp only []
    rw [hmin] at hcond
    linarith

/-- C7 witness: concrete lifecycle facts at `now = 3`. -/
theorem claim_C7_rate_state_lifecycle_witness :
    initRateState.min_delay = 5 ∧
    (initRateState.last_request_time = 0 ∧
    (generate_sql_timed initRateState 3 (Except.error "e")).2.1 = initRateState ∧
    (validate_and_improve_query_timed initRateState 3 (Except.error "e")).2.1.last_request_time =
      (validate_and_improve_query_timed initRateState 3 (Except.error "e")).2.2 ∧
    initRateState.last_request_time ≤
      (validate_and_improve_query_timed initRateState 3 (Except.error "e")).2.1.last_request_time) :=
  ⟨rfl, claim_C7_rate_state_lifecycle initRateState 3 (Except.error "e") rfl⟩

/-- C5 witness: a concrete fence-free, whitespace-free payload parsed
identically wrapped and bare. -/
theorem claim_C5_fence_wrapping_transparent_witness :
    pyContains "\x7b\"sql\": \"SELECT 2\", \"explanation\": \"E2\"\x7d" "```" = false ∧
    pyStrip "\x7b\"sql\": \"SELECT 2\", \"explanation\": \"E2\"\x7d" =
      "\x7b\"sql\": \"SELECT 2\", \"explanation\": \"E2\"\x7d" ∧
    (generate_sql (Except.ok
        (wrapJson "\x7b\"sql\": \"SELECT 2\", \"explanation\": \"E2\"\x7d")) =
      generate_sql (Except.ok "\x7b\"sql\": \"SELECT 2\", \"explanation\": \"E2\"\x7d") ∧
    validate_and_improve_query (Except.ok
        (wrapJson "\x7b\"sql\": \"SELECT 2\", \"explanation\": \"E2\"\x7d")) =
      validate_and_improve_query
        (Except.ok "\x7b\"sql\": \"SELECT 2\", \"explanation\": \"E2\"\x7d")) :=
  ⟨by decide, by rfl, claim_C5_fence_wrapping_transparent _ (by decide) (by rfl)⟩

/-- C1: every workflow run issues at most one corrector call and at most
two executor calls, however the executions fail; the repair loop is a
straight-line single-retry path and cannot loop (the embedding is a total
function). -/
theorem claim_C1_repair_loop_bounded (question ts : String) (save_sql : Bool)
    (genApi : Except String String) (exec1 exec2 : Except String DataFrame)
    (fixApi summaryApi : Except String String) (edaFiles : List String) :
    countFixCalls (run_analysis question ts save_sql genApi exec1 exec2 fixApi
      summaryApi edaFiles).2 ≤ 1 ∧
    countExecCalls (run_analysis question ts save_sql genApi exec1 exec2 fixApi
      summaryApi edaFiles).2 ≤ 2 := by
  simp only [run_analysis]
  split
  · simp [countFixCalls, countExecCalls]
  · split
    · split
      · split
        · cases save_sql <;>
            simp [countFixCalls, countExecCalls, List.filter_append]
        · cases (execute_query exec2).1 <;> cases save_sql <;>
            simp [finishRun, countFixCalls, countExecCalls, List.filter_append]
      · cases save_sql <;>
          simp [countFixCalls, countExecCalls, List.filter_append]
    · cases (execute_query exec1).1 <;> cases save_sql <;>
        simp [finishRun, countFixCalls, countExecCalls, List.filter_append]

/-- C8 counterexample: when SQL generation itself fails, the workflow
returns a terminal-failure dict that contains the question but neither any
SQL nor the error text (main.py lines 48-50 return `results` before any
`error` key is stored), refuting the claim that every terminal failure
reports the attempted SQL and the last error. -/
theorem claim_C8_counterexample :
    (run_analysis "q" "t" true (Except.error "boom") (Except.ok ⟨[]⟩) (Except.ok ⟨[]⟩)
        (Except.error "x") (Except.ok "s") []).1 =
      some { success := false, query := "q", timestamp := "t", sql_query := none,
             sql_explanation := none, sql_file := none, error := none, row_count := none,
             executive_summary := none, report_file := none } := by
  rfl

/-- C8 (amended): on terminal failures reached after SQL generation
succeeded (correction failure or second execution failure), the returned
dict carries the original question, the last-attempted SQL (the corrected
SQL when a correction was applied — it equals the SQL of the last executor
call of the trace), and the last error text; a generation failure, by
contrast, returns only the question. -/
theorem claim_C8_failure_report (question ts : String) (save_sql : Bool)
    (genApi : Except String String) (exec1 exec2 : Except String DataFrame)
    (fixApi summaryApi : Except String String) (edaFiles : List String)
    (r : Results) (tr : List Event)
    (hrun : run_analysis question ts save_sql genApi exec1 exec2 fixApi summaryApi
      edaFiles = (some r, tr))
    (hgen : (generate_sql genApi).success = true)
    (hfail : r.success = false) :
    r.query = question ∧
    r.sql_query = lastExecSql tr ∧ (lastExecSql tr).isSome = true ∧
    r.error.isSome = true ∧
    ((countExecCalls tr = 1 ∧ r.error = (execute_query exec1).2) ∨
     (countExecCalls tr = 2 ∧ r.error = (execute_query exec2).2)) := by
  simp only [run_analysis] at hrun
  rw [if_neg (by simp [hgen])] at hrun
  split at hrun
  · rename_i h1
    split at hrun
    · split at hrun
      · rename_i h2 h3
        simp only [Prod.mk.injEq, Option.some.injEq] at hrun
        obtain ⟨hr, htr⟩ := hrun
        subst htr
        cases save_sql <;>
          (rw [← hr]
           refine ⟨rfl, ?_, ?_, truthy_isSome h3, Or.inr ⟨?_, rfl⟩⟩ <;>
             simp [lastExecSql, countExecCalls, List.filterMap_append,
               List.filter_append])
      · rename_i h2 h3
        cases hdf : (execute_query exec2).1 with
        | none =>
          rw [hdf] at hrun
          simp [finishRun] at hrun
        | some df =>
          rw [hdf] at hrun
          simp only [finishRun, Prod.mk.injEq, Option.some.injEq] at hrun
          obtain ⟨hr, -⟩ := hrun
          rw [← hr] at hfail
          simp at hfail
    · rename_i h2
      simp only [Prod.mk.injEq, Option.some.injEq] at hrun
      obtain ⟨hr, htr⟩ := hrun
      subst htr
      cases save_sql <;>
        (rw [← hr]
         refine ⟨rfl, ?_, ?_, truthy_isSome h1, Or.inl ⟨?_, rfl⟩⟩ <;>
           simp [lastExecSql, countExecCalls, List.filterMap_append,
             List.filter_append])
  · rename_i h1
    cases hdf : (execute_query exec1).1 with
    | none =>
      rw [hdf] at hrun
      simp [finishRun] at hrun
    | some df =>
      rw [hdf] at hrun
      simp only [finishRun, Prod.mk.injEq, Option.some.injEq] at hrun
      obtain ⟨hr, -⟩ := hrun
      rw [← hr] at hfail
      simp at hfail

/-- C8 witness: a concrete correction-failure run reporting question,
attempted SQL and error. -/
theorem claim_C8_failure_report_witness :
    (run_analysis "q" "t" true (Except.ok "\x7b\"sql\": \"S1\", \"explanation\": \"E\"\x7d")
        (Except.error "colerr") (Except.ok ⟨[]⟩) (Except.error "fixfail") (Except.ok "s") []
      = (some { success := false, query := "q", timestamp := "t", sql_query := some "S1",
                sql_explanation := some "E", sql_file := some "../sql_queries/query_t.sql",
                error := some "colerr" },
         [Event.genCall,
          Event.fileWrite "../sql_queries/query_t.sql"
            "-- Generated: t\n-- Question: q\n-- Explanation: E\n\nS1",
          Event.execCall "S1", Event.fixCall "S1" "colerr"])) ∧
    (generate_sql (Except.ok "\x7b\"sql\": \"S1\", \"explanation\": \"E\"\x7d")).success = true ∧
    ({ success := false, query := "q", timestamp := "t", sql_query := some "S1",
          sql_explanation := some "E", sql_file := some "../sql_queries/query_t.sql",
          error := some "colerr" } : Results).success = false ∧
    (({ success := false, query := "q", timestamp := "t", sql_query := some "S1",
          sql_explanation := some "E", sql_file := some "../sql_queries/query_t.sql",
          error := some "colerr" } : Results).query = "q" ∧
     ({ success := false, query := "q", timestamp := "t", sql_query := some "S1",
          sql_explanation := some "E", sql_file := some "../sql_queries/query_t.sql",
          error := some "colerr" } : Results).sql_query =
       lastExecSql [Event.genCall,
          Event.fileWrite "../sql_queries/query_t.sql"
            "-- Generated: t\n-- Question: q\n-- Explanation: E\n\nS1",
          Event.execCall "S1", Event.fixCall "S1" "colerr"] ∧
     (lastExecSql [Event.genCall,
          Event.fileWrite "../sql_queries/query_t.sql"
            "-- Generated: t\n-- Question: q\n-- Explanation: E\n\nS1",
          Event.execCall "S1", Event.fixCall "S1" "colerr"]).isSome = true ∧
     ({ success := false, query := "q", timestamp := "t", sql_query := some "S1",
          sql_explanation := some "E", sql_file := some "../sql_queries/query_t.sql",
          error := some "colerr" } : Results).error.isSome = true ∧
     ((countExecCalls [Event.genCall,
          Event.fileWrite "../sql_queries/query_t.sql"
            "-- Generated: t\n-- Question: q\n-- Explanation: E\n\nS1",
          Event.execCall "S1", Event.fixCall "S1" "colerr"] = 1 ∧
       ({ success := false, query := "q", timestamp := "t", sql_query := some "S1",
            sql_explanation := some "E", sql_file := some "../sql_queries/query_t.sql",
            error := some "colerr" } : Results).error =
         (execute_query (Except.error "colerr")).2) ∨
      (countExecCalls [Event.genCall,
          Event.fileWrite "../sql_queries/query_t.sql"
            "-- Generated: t\n-- Question: q\n-- Explanation: E\n\nS1",
          Event.execCall "S1", Event.fixCall "S1" "colerr"] = 2 ∧
       ({ success := false, query := "q", timestamp := "t", sql_query := some "S1",
            sql_explanation := some "E", sql_file := some "../sql_queries/query_t.sql",
            error := some "colerr" } : Results).error =
         (execute_query (Except.ok (⟨[]⟩ : DataFrame))).2))) :=
  ⟨by rfl, by rfl, by rfl,
    claim_C8_failure_report "q" "t" true
      (Except.ok "\x7b\"sql\": \"S1\", \"explanation\": \"E\"\x7d")
      (Except.error "colerr") (Except.ok ⟨[]⟩) (Except.error "fixfail") (Except.ok "s") []
      { success := false, query := "q", timestamp := "t", sql_query := some "S1",
        sql_explanation := some "E", sql_file := some "../sql_queries/query_t.sql",
        error := some "colerr" }
      [Event.genCall,
       Event.fileWrite "../sql_queries/query_t.sql"
         "-- Generated: t\n-- Question: q\n-- Explanation: E\n\nS1",
       Event.execCall "S1", Event.fixCall "S1" "colerr"]
      (by rfl) (by rfl) (by rfl)⟩

/-- C9 counterexample: a run in which executive-summary generation fails
(the completion call raises) still reports `success = True`; the error
message is substituted for the summary in the report
(summary_generator.py lines 96-110 RETURN the error string instead of
raising), refuting the claim that no run reports success while a
downstream step has failed. -/
theorem claim_C9_counterexample :
    (run_analysis "q" "t" false (Except.ok "\x7b\"sql\": \"S1\", \"explanation\": \"E\"\x7d")
        (Except.ok ⟨[["a"]]⟩) (Except.ok ⟨[]⟩) (Except.error "x") (Except.error "boom") []).1 =
      some { success := true, query := "q", timestamp := "t", sql_query := some "S1",
             sql_explanation := some "E", sql_file := none, error := none,
             row_count := some 1,
             executive_summary := some "Error generating summary: boom",
             report_file := some "../outputs/complete_report_t.md" } := by
  rfl

/-- C9 (amended): a run that returns with `success = True` has completed
the whole pipeline — rows and a report file are present, and the
executive-summary slot holds whatever `generate_executive_summary`
returned, which may be a substituted error message rather than a real
summary; a run that returns `success = False` produces no row count, no
summary and no report file.  Success therefore reflects only the
generation/execution stages, not downstream-summary health. -/
theorem claim_C9_success_scope (question ts : String) (save_sql : Bool)
    (genApi : Except String String) (exec1 exec2 : Except String DataFrame)
    (fixApi summaryApi : Except String String) (edaFiles : List String)
    (r : Results) (tr : List Event)
    (hrun : run_analysis question ts save_sql genApi exec1 exec2 fixApi summaryApi
      edaFiles = (some r, tr)) :
    (r.success = true → r.row_count.isSome = true ∧ r.report_file.isSome = true ∧
      r.executive_summary = some (generate_executive_summary summaryApi)) ∧
    (r.success = false → r.row_count = none ∧ r.executive_summary = none ∧
      r.report_file = none) := by
  simp only [run_analysis] at hrun
  split at hrun
  · simp only [Prod.mk.injEq, Option.some.injEq] at hrun
    obtain ⟨hr, -⟩ := hrun
    rw [← hr]
    exact ⟨fun h => by simp at h, fun _ => ⟨rfl, rfl, rfl⟩⟩
  · split at hrun
    · split at hrun
      · split at hrun
        · simp only [Prod.mk.injEq, Option.some.injEq] at hrun
          obtain ⟨hr, -⟩ := hrun
          rw [← hr]
          cases save_sql <;>
            exact ⟨fun h => by simp at h, fun _ => ⟨rfl, rfl, rfl⟩⟩
        · cases hdf : (execute_query exec2).1 with
          | none =>
            rw [hdf] at hrun
            simp [finishRun] at hrun
          | some df =>
            rw [hdf] at hrun
            simp only [finishRun, Prod.mk.injEq, Option.some.injEq] at hrun
            obtain ⟨hr, -⟩ := hrun
            rw [← hr]
            exact ⟨fun _ => ⟨rfl, rfl, rfl⟩, fun h => by simp at h⟩
      · simp only [Prod.mk.injEq, Option.some.injEq] at hrun
        obtain ⟨hr, -⟩ := hrun
        rw [← hr]
        cases save_sql <;>
          exact ⟨fun h => by simp at h, fun _ => ⟨rfl, rfl, rfl⟩⟩
    · cases hdf : (execute_query exec1).1 with
      | none =>
        rw [hdf] at hrun
        simp [finishRun] at hrun
      | some df =>
        rw [hdf] at hrun
        simp only [finishRun, Prod.mk.injEq, Option.some.injEq] at hrun
        obtain ⟨hr, -⟩ := hrun
        rw [← hr]
        exact ⟨fun _ => ⟨rfl, rfl, rfl⟩, fun h => by simp at h⟩

/-- C9 witness: the full-success run of Scenario A, with the summary slot
holding the summary text the completion backend returned. -/
theorem claim_C9_success_scope_witness :
    (run_analysis "q" "t" false (Except.ok "\x7b\"sql\": \"S1\", \"explanation\": \"E\"\x7d")
        (Except.ok ⟨[["a"]]⟩) (Except.ok ⟨[]⟩) (Except.error "x") (Except.ok "the summary") []
      = (some { success := true, query := "q", timestamp := "t", sql_query := some "S1",
                sql_explanation := some "E", row_count := some 1,
                executive_summary := some "the summary",
                report_file := some "../outputs/complete_report_t.md" },
         [Event.genCall, Event.execCall "S1", Event.summaryCall,
          Event.fileWrite "../outputs/complete_report_t.md" "report"])) ∧
    ((({ success := true, query := "q", timestamp := "t", sql_query := some "S1",
          sql_explanation := some "E", row_count := some 1,
          executive_summary := some "the summary",
          report_file := some "../outputs/complete_report_t.md" } : Results).success = true →
        ({ success := true, query := "q", timestamp := "t", sql_query := some "S1",
            sql_explanation := some "E", row_count := some 1,
            executive_summary := some "the summary",
            report_file := some "../outputs/complete_report_t.md" } : Results).row_count.isSome
          = true ∧
        ({ success := true, query := "q", timestamp := "t", sql_query := some "S1",
            sql_explanation := some "E", row_count := some 1,
            executive_summary := some "the summary",
            report_file := some "../outputs/complete_report_t.md" } : Results).report_file.isSome
          = true ∧
        ({ success := true, query := "q", timestamp := "t", sql_query := some "S1",
            sql_explanation := some "E", row_count := some 1,
            executive_summary := some "the summary",
            report_file := some "../outputs/complete_report_t.md" } : Results).executive_summary
          = some (generate_executive_summary (Except.ok "the summary"))) ∧
      (({ success := true, query := "q", timestamp := "t", sql_query := some "S1",
          sql_explanation := some "E", row_count := some 1,
          executive_summary := some "the summary",
          report_file := some "../outputs/complete_report_t.md" } : Results).success = false →
        ({ success := true, query := "q", timestamp := "t", sql_query := some "S1",
            sql_explanation := some "E", row_count := some 1,
            executive_summary := some "the summary",
            report_file := some "../outputs/complete_report_t.md" } : Results).row_count = none ∧
        ({ success := true, query := "q", timestamp := "t", sql_query := some "S1",
            sql_explanation := some "E", row_count := some 1,
            executive_summary := some "the summary",
            report_file := some "../outputs/complete_report_t.md" } : Results).executive_summary
          = none ∧
        ({ success := true, query := "q", timestamp := "t", sql_query := some "S1",
            sql_explanation := some "E", row_count := some 1,
            executive_summary := some "the summary",
            report_file := some "../outputs/complete_report_t.md" } : Results).report_file
          = none)) :=
  ⟨by rfl,
    claim_C9_success_scope "q" "t" false
      (Except.ok "\x7b\"sql\": \"S1\", \"explanation\": \"E\"\x7d")
      (Except.ok ⟨[["a"]]⟩) (Except.ok ⟨[]⟩) (Except.error "x") (Except.ok "the summary") []
      { success := true, query := "q", timestamp := "t", sql_query := some "S1",
        sql_explanation := some "E", row_count := some 1,
        executive_summary := some "the summary",
        report_file := some "../outputs/complete_report_t.md" }
      [Event.genCall, Event.execCall "S1", Event.summaryCall,
       Event.fileWrite "../outputs/complete_report_t.md" "report"]
      (by rfl)⟩

theorem outputs_ne_sql_queries (x y : String) :
    "../outputs/" ++ x ≠ "../sql_queries/" ++ y := by
  intro h
  have hd := congrArg String.data h
  simp only [String.data_append] at hd
  have h3 := congrArg (fun l => l[3]?) hd
  simp only [List.getElem?_append_left (by decide : (3 : Nat) < "../outputs/".data.length),
    List.getElem?_append_left (by decide : (3 : Nat) < "../sql_queries/".data.length)] at h3
  revert h3
  decide

/-- C10: with `save_sql = True` and a successful generation, the generated
SQL is written to `../sql_queries/query_<ts>.sql` immediately after
generation and before any execution is attempted; no later event of the run
ever writes to that path again, so the file persists with the original
(uncorrected) SQL even when execution fails, a correction replaces the
working SQL, or the workflow terminates in failure. -/
theorem claim_C10_sql_file_persists (question ts : String)
    (genApi : Except String String) (exec1 exec2 : Except String DataFrame)
    (fixApi summaryApi : Except String String) (edaFiles : List String)
    (hgen : (generate_sql genApi).success = true) :
    ∃ rest : List Event,
      (run_analysis question ts true genApi exec1 exec2 fixApi summaryApi edaFiles).2 =
        Event.genCall ::
          Event.fileWrite ("../sql_queries/" ++ ("query_" ++ ts ++ ".sql"))
            (mkSqlFileContent ts question ((generate_sql genApi).explanation.getD "")
              ((generate_sql genApi).sql.getD "")) ::
          Event.execCall ((generate_sql genApi).sql.getD "") :: rest ∧
      ∀ c : String,
        Event.fileWrite ("../sql_queries/" ++ ("query_" ++ ts ++ ".sql")) c ∈ rest →
          False := by
  simp only [run_analysis]
  rw [if_neg (by simp [hgen])]
  split
  · split
    · split
      · refine ⟨[Event.fixCall ((generate_sql genApi).sql.getD "")
            ((execute_query exec1).2.getD ""),
          Event.execCall ((validate_and_improve_query fixApi).sql.getD "")], ?_, ?_⟩
        · simp
        · intro c hc
          simp at hc
      · cases hdf : (execute_query exec2).1 with
        | none =>
          refine ⟨[Event.fixCall ((generate_sql genApi).sql.getD "")
              ((execute_query exec1).2.getD ""),
            Event.execCall ((validate_and_improve_query fixApi).sql.getD "")], ?_, ?_⟩
          · simp [finishRun]
          · intro c hc
            simp at hc
        | some df =>
          refine ⟨[Event.fixCall ((generate_sql genApi).sql.getD "")
              ((execute_query exec1).2.getD ""),
            Event.execCall ((validate_and_improve_query fixApi).sql.getD "")] ++
            (edaFiles.map fun f => Event.fileWrite ("../outputs/" ++ f) "eda-artifact") ++
            [Event.summaryCall,
             Event.fileWrite ("../outputs/" ++ ("complete_report_" ++ ts ++ ".md"))
               "report"], ?_, ?_⟩
          · simp [finishRun]
          · intro c hc
            simp at hc
            rcases hc with ⟨f, -, heq, -⟩ | heq
            · exact outputs_ne_sql_queries f ("query_" ++ ts ++ ".sql") heq
            · exact outputs_ne_sql_queries ("complete_report_" ++ ts ++ ".md")
                ("query_" ++ ts ++ ".sql") heq.1.symm
    · refine ⟨[Event.fixCall ((generate_sql genApi).sql.getD "")
          ((execute_query exec1).2.getD "")], ?_, ?_⟩
      · simp
      · intro c hc
        simp at hc
  · cases hdf : (execute_query exec1).1 with
    | none =>
      refine ⟨[], ?_, ?_⟩
      · simp [finishRun]
      · intro c hc
        simp at hc
    | some df =>
      refine ⟨(edaFiles.map fun f => Event.fileWrite ("../outputs/" ++ f) "eda-artifact") ++
        [Event.summaryCall,
         Event.fileWrite ("../outputs/" ++ ("complete_report_" ++ ts ++ ".md"))
           "report"], ?_, ?_⟩
      · simp [finishRun]
      · intro c hc
        simp at hc
        rcases hc with ⟨f, -, heq, -⟩ | heq
        · exact outputs_ne_sql_queries f ("query_" ++ ts ++ ".sql") heq
        · exact outputs_ne_sql_queries ("complete_report_" ++ ts ++ ".md")
            ("query_" ++ ts ++ ".sql") heq.1.symm

/-- C10 witness: Scenario C run — the saved file holds the ORIGINAL SQL
`S1` even though the corrected SQL `S2` was executed afterwards. -/
theorem claim_C10_sql_file_persists_witness :
    (generate_sql (Except.ok "\x7b\"sql\": \"S1\", \"explanation\": \"E\"\x7d")).success
      = true ∧
    ∃ rest : List Event,
      (run_analysis "q" "t" true (Except.ok "\x7b\"sql\": \"S1\", \"explanation\": \"E\"\x7d")
          (Except.error "colerr") (Except.error "err2")
          (Except.ok "\x7b\"sql\": \"S2\", \"changes\": \"C\", \"warnings\": \"W\"\x7d")
          (Except.ok "s") []).2 =
        Event.genCall ::
          Event.fileWrite ("../sql_queries/" ++ ("query_" ++ "t" ++ ".sql"))
            (mkSqlFileContent "t" "q"
              ((generate_sql
                (Except.ok "\x7b\"sql\": \"S1\", \"explanation\": \"E\"\x7d")).explanation.getD "")
              ((generate_sql
                (Except.ok "\x7b\"sql\": \"S1\", \"explanation\": \"E\"\x7d")).sql.getD "")) ::
          Event.execCall
            ((generate_sql
              (Except.ok "\x7b\"sql\": \"S1\", \"explanation\": \"E\"\x7d")).sql.getD "") ::
          rest ∧
      ∀ c : String,
        Event.fileWrite ("../sql_queries/" ++ ("query_" ++ "t" ++ ".sql")) c ∈ rest →
          False :=
  ⟨by rfl,
    claim_C10_sql_file_persists "q" "t"
      (Except.ok "\x7b\"sql\": \"S1\", \"explanation\": \"E\"\x7d")
      (Except.error "colerr") (Except.error "err2")
      (Except.ok "\x7b\"sql\": \"S2\", \"changes\": \"C\", \"warnings\": \"W\"\x7d")
      (Except.ok "s") [] (by rfl)⟩

end SalesAnalytics
